import Mathlib

/-!
Verification of the space-museum Earth scene (src/main.ts) against its
specification.  The TypeScript program is shallowly embedded: JavaScript
numbers are modelled as real numbers, the `Math.random()` stream as an
explicit function `rnd : Nat -> Real` (the i-th draw of the run), texture
loading as a function `String -> Except LoadErr Texture`, and the mutable
scene graph as an explicit `SceneState` record transformed by `tick`
(the per-frame callback) and `onResize` (the resize listener).
-/

namespace SpaceMuseum

/-- A 3D vector with real components, modelling a `THREE.Vector3` or one
`(x, y, z)` triple of the star-field position buffer. -/
structure Vec3 where
  x : ℝ
  y : ℝ
  z : ℝ

/-- Euclidean distance of a point from the origin. -/
noncomputable def dist3 (p : Vec3) : ℝ :=
  Real.sqrt (p.x ^ 2 + p.y ^ 2 + p.z ^ 2)

/-!
## Star field generator (`makeStarField`, main.ts lines 169-203)

The loop body draws three uniform randoms per point: `r`, `u`, `v`.
We model the random stream as `rnd : Nat -> Real`; point `i` consumes
draws `3*i`, `3*i+1`, `3*i+2`.
-/

/-- The position buffer filled by the loop of `makeStarField`:
`r = radius + random * depth`, `theta = 2*pi*u`, `phi = acos(2*v - 1)`,
then the spherical-to-Cartesian conversion. -/
noncomputable def starFieldPositions (rnd : ℕ → ℝ) (count : ℕ)
    (radius depth : ℝ) : List Vec3 :=
  (List.range count).map (fun i =>
    let r := radius + rnd (3 * i) * depth
    let u := rnd (3 * i + 1)
    let v := rnd (3 * i + 2)
    let theta := 2 * Real.pi * u
    let phi := Real.arccos (2 * v - 1)
    ⟨r * Real.sin phi * Real.cos theta,
     r * Real.sin phi * Real.sin theta,
     r * Real.cos phi⟩)

/-- The `THREE.Points` object returned by `makeStarField`: the position
buffer plus the `PointsMaterial` settings. -/
structure StarField where
  positions : List Vec3
  size : ℝ
  sizeAttenuation : Bool
  transparent : Bool
  opacity : ℝ
  depthWrite : Bool

/-- `makeStarField({count, radius, depth})` (main.ts lines 169-203). -/
noncomputable def makeStarField (rnd : ℕ → ℝ) (count : ℕ)
    (radius depth : ℝ) : StarField :=
  { positions := starFieldPositions rnd count radius depth
    size := 1.2
    sizeAttenuation := true
    transparent := true
    opacity := 0.9
    depthWrite := false }

/-!
## Textures (`loader.load` / `tryLoad`, main.ts lines 50-60, 161-167)
-/

/-- A texture handle; only its identity (the path it was loaded from)
matters for the model. -/
structure Texture where
  path : String

/-- A load failure. -/
abbrev LoadErr := String

/-- The texture loader: a fallible map from asset path to texture.
`loader.load` throwing is modelled by `Except.error`. -/
abbrev Loader := String → Except LoadErr Texture

/-- `tryLoad(path, loader)` (main.ts lines 161-167): wraps the load in
try/catch, returning `null` (here `none`) on failure instead of
propagating it. -/
def tryLoad (l : Loader) (path : String) : Option Texture :=
  match l path with
  | Except.ok t => some t
  | Except.error _ => none

/-!
## Camera and orbit controls (main.ts lines 25-38)
-/

/-- The perspective camera: projection parameters and position.  Orbit
controls mutate only the position. -/
structure CameraState where
  fov : ℝ
  aspect : ℝ
  near : ℝ
  far : ℝ
  position : Vec3

/-- `new THREE.PerspectiveCamera(45, w/h, 0.1, 2000)` with
`camera.position.set(0, 0, 6)` (main.ts lines 25-31). -/
noncomputable def initialCamera (w h : ℝ) : CameraState :=
  { fov := 45, aspect := w / h, near := 0.1, far := 2000
    position := ⟨0, 0, 6⟩ }

/-- Orbit-control configuration (main.ts lines 34-38). -/
structure ControlsState where
  enableDamping : Bool
  dampingFactor : ℝ
  minDistance : ℝ
  maxDistance : ℝ

/-- The `OrbitControls` settings made at startup. -/
noncomputable def initialControls : ControlsState :=
  { enableDamping := true, dampingFactor := 0.06
    minDistance := 3.0, maxDistance := 20.0 }

/-!
## Scene state (main.ts lines 62-123)
-/

/-- The mutable state of the optional night-lights mesh
(main.ts lines 76-87). -/
structure NightState where
  renderOrder : ℤ
  opacity : ℝ
  additiveBlending : Bool
  transparent : Bool
  depthWrite : Bool

/-- The mutable state of the optional clouds mesh
(main.ts lines 90-102). -/
structure CloudsState where
  renderOrder : ℤ
  radius : ℝ
  rotY : ℝ
  opacity : ℝ
  transparent : Bool
  depthWrite : Bool

/-- The whole mutable scene: Earth, the optional overlays, the
atmosphere, the sun, the star field, the camera, controls and the
renderer output surface. -/
structure SceneState where
  earthRadius : ℝ
  earthRotY : ℝ
  earthRenderOrder : Option ℤ
  earthNormalMap : Option Texture
  earthSpecMap : Option Texture
  night : Option NightState
  clouds : Option CloudsState
  atmoRadius : ℝ
  atmoRenderOrder : ℤ
  atmoOpacity : ℝ
  sunPosition : Vec3
  stars : StarField
  camera : CameraState
  controls : ControlsState
  surfaceW : ℝ
  surfaceH : ℝ
  pixelRatio : ℝ
  projectionRefreshed : Bool

/-- Startup scene composition (main.ts lines 14-123): the required day
map is loaded without a catch, so its failure propagates; every other
texture goes through `tryLoad`, and the night / cloud meshes are created
only when their maps loaded.  `w`, `h` are the window dimensions and
`dpr` the device pixel ratio. -/
noncomputable def composeScene (l : Loader) (rnd : ℕ → ℝ)
    (w h dpr : ℝ) : Except LoadErr SceneState :=
  match l "/textures/earth_day.jpg" with
  | Except.error e => Except.error e
  | Except.ok _dayMap =>
    let normalMap := tryLoad l "/textures/earth_normal.jpg"
    let specMap := tryLoad l "/textures/earth_specular.jpg"
    let nightMap := tryLoad l "/textures/earth_night.jpg"
    let cloudsMap := tryLoad l "/textures/earth_clouds.png"
    Except.ok
      { earthRadius := 1
        earthRotY := 0
        earthRenderOrder := none
        earthNormalMap := normalMap
        earthSpecMap := specMap
        night := nightMap.map (fun _ =>
          { renderOrder := 1, opacity := 1, additiveBlending := true
            transparent := true, depthWrite := false })
        clouds := cloudsMap.map (fun _ =>
          { renderOrder := 2, radius := 1.008, rotY := 0, opacity := 0.75
            transparent := true, depthWrite := false })
        atmoRadius := 1.03
        atmoRenderOrder := 3
        atmoOpacity := 0.08
        sunPosition := ⟨5, 2, 5⟩
        stars := makeStarField rnd 8000 900 600
        camera := initialCamera w h
        controls := initialControls
        surfaceW := w
        surfaceH := h
        pixelRatio := min dpr 2
        projectionRefreshed := false }

/-!
## Per-frame update (`tick`, main.ts lines 128-149)

`controls.update()` is library code outside this repository; it mutates
only the camera position, so it is abstracted as a parameter
`orbitStep : Vec3 -> Vec3` applied once per frame.  The frame body also
computes a `lightDir` from the sun position, but never uses it: the
night-overlay opacity is assigned the constant `0.6`.
-/

/-- One frame of the render loop at elapsed time `t`. -/
def tick (orbitStep : Vec3 → Vec3) (t : ℝ) (s : SceneState) : SceneState :=
  { s with
    earthRotY := t * 0.08
    clouds := s.clouds.map (fun c => { c with rotY := t * 0.11 })
    night := s.night.map (fun n => { n with opacity := 0.6 })
    camera := { s.camera with position := orbitStep s.camera.position } }

/-!
## Resize listener (main.ts lines 153-158)
-/

/-- The resize handler for a new viewport `(w, h)` and device pixel
ratio `dpr`: new aspect, `updateProjectionMatrix()` (recorded by the
`projectionRefreshed` flag), `setSize`, and the reclamped pixel ratio. -/
noncomputable def onResize (w h dpr : ℝ) (s : SceneState) : SceneState :=
  { s with
    camera := { s.camera with aspect := w / h }
    projectionRefreshed := true
    surfaceW := w
    surfaceH := h
    pixelRatio := min dpr 2 }

/-!
## Event traces

Everything that can happen to the scene after composition is a frame or
a resize; a trace of these events reaches every state the program can
be in.
-/

/-- An external event: one animation frame (with its orbit-control step
and the clock reading) or one resize signal. -/
inductive Event where
  | frame : (Vec3 → Vec3) → ℝ → Event
  | resize : ℝ → ℝ → ℝ → Event

/-- Apply one event to the scene. -/
noncomputable def stepEvent (s : SceneState) : Event → SceneState
  | Event.frame f t => tick f t s
  | Event.resize w h d => onResize w h d s

/-- Run a whole trace of events. -/
noncomputable def runEvents (evs : List Event) (s : SceneState) : SceneState :=
  evs.foldl stepEvent s

/-!
## Concrete fixtures for witnesses
-/

/-- A degenerate random stream: every draw is `0`. -/
noncomputable def rnd0 : ℕ → ℝ := fun _ => 0

/-- A loader on which every asset loads. -/
def lok : Loader := fun p => Except.ok ⟨p⟩

/-- A loader on which only the clouds texture fails to load. -/
def lclouds : Loader := fun p =>
  if p = "/textures/earth_clouds.png" then Except.error "missing"
  else Except.ok ⟨p⟩

/-- A loader on which every asset fails to load. -/
def lbad : Loader := fun _ => Except.error "missing"

/-- The night-mesh state as composed at startup. -/
noncomputable def nightEx : NightState :=
  { renderOrder := 1, opacity := 1, additiveBlending := true
    transparent := true, depthWrite := false }

/-- The clouds-mesh state as composed at startup. -/
noncomputable def cloudsEx : CloudsState :=
  { renderOrder := 2, radius := 1.008, rotY := 0, opacity := 0.75
    transparent := true, depthWrite := false }

/-- The scene composed by `lok` at a 16:9 window with pixel ratio 1. -/
noncomputable def sceneEx : SceneState :=
  { earthRadius := 1
    earthRotY := 0
    earthRenderOrder := none
    earthNormalMap := some ⟨"/textures/earth_normal.jpg"⟩
    earthSpecMap := some ⟨"/textures/earth_specular.jpg"⟩
    night := some nightEx
    clouds := some cloudsEx
    atmoRadius := 1.03
    atmoRenderOrder := 3
    atmoOpacity := 0.08
    sunPosition := ⟨5, 2, 5⟩
    stars := makeStarField rnd0 8000 900 600
    camera := initialCamera 16 9
    controls := initialControls
    surfaceW := 16
    surfaceH := 9
    pixelRatio := min 1 2
    projectionRefreshed := false }

/-- The scene composed by `lclouds`: same but without the clouds mesh. -/
noncomputable def sceneNoClouds : SceneState :=
  { sceneEx with clouds := none }

end SpaceMuseum

namespace SpaceMuseum

/-!
## Theorems
-/

/-- A point given in spherical coordinates lies at distance `r` from the
origin when `r` is non-negative. -/
lemma dist3_spherical (r theta phi : ℝ) (hr : 0 ≤ r) :
    dist3 ⟨r * Real.sin phi * Real.cos theta,
           r * Real.sin phi * Real.sin theta,
           r * Real.cos phi⟩ = r := by
  have h1 := Real.sin_sq_add_cos_sq theta
  have h2 := Real.sin_sq_add_cos_sq phi
  have hsum : (r * Real.sin phi * Real.cos theta) ^ 2 +
      (r * Real.sin phi * Real.sin theta) ^ 2 + (r * Real.cos phi) ^ 2
      = r ^ 2 := by
    linear_combination (r ^ 2 * Real.sin phi ^ 2) * h1 + r ^ 2 * h2
  show Real.sqrt _ = r
  rw [hsum]
  exact Real.sqrt_sq hr

/-- C1: with `count > 0`, non-negative `radius` and `depth`, and every
random draw in `[0, 1)`, `makeStarField` produces exactly `count`
points, each at Euclidean distance from the origin within
`[radius, radius + depth]`. -/
theorem makeStarField_count_and_shell (rnd : ℕ → ℝ) (count : ℕ)
    (radius depth : ℝ) (_hc : 0 < count) (hr : 0 ≤ radius) (hd : 0 ≤ depth)
    (hrnd : ∀ n, 0 ≤ rnd n ∧ rnd n < 1) :
    (makeStarField rnd count radius depth).positions.length = count ∧
    ∀ p ∈ (makeStarField rnd count radius depth).positions,
      radius ≤ dist3 p ∧ dist3 p ≤ radius + depth := by
  constructor
  · simp [makeStarField, starFieldPositions]
  · intro p hp
    simp only [makeStarField, starFieldPositions, List.mem_map,
      List.mem_range] at hp
    obtain ⟨i, _, rfl⟩ := hp
    obtain ⟨h0, h1⟩ := hrnd (3 * i)
    have hr0 : 0 ≤ radius + rnd (3 * i) * depth := by positivity
    rw [dist3_spherical _ _ _ hr0]
    constructor
    · nlinarith
    · nlinarith

/-- Witness for C1 at `count = 1`, `radius = 2`, `depth = 3` with the
all-zero random stream. -/
theorem makeStarField_count_and_shell_witness :
    (0 < 1 ∧ (0 : ℝ) ≤ 2 ∧ (0 : ℝ) ≤ 3 ∧
      (∀ n, 0 ≤ rnd0 n ∧ rnd0 n < 1)) ∧
    (makeStarField rnd0 1 2 3).positions.length = 1 ∧
    ∀ p ∈ (makeStarField rnd0 1 2 3).positions,
      2 ≤ dist3 p ∧ dist3 p ≤ 2 + 3 := by
  refine ⟨⟨by norm_num, by norm_num, by norm_num,
    fun n => by norm_num [rnd0]⟩, ?_⟩
  exact makeStarField_count_and_shell rnd0 1 2 3 (by norm_num)
    (by norm_num) (by norm_num) (fun n => by norm_num [rnd0])

/-- C6: the `i`-th star (for `i < count`) is exactly the Cartesian
conversion of the sampled spherical coordinates: `r = radius + draw *
depth`, `theta = 2 * pi * u`, `phi = acos (2 * v - 1)`, and
`(x, y, z) = (r sin phi cos theta, r sin phi sin theta, r cos phi)`. -/
theorem starField_point_formula (rnd : ℕ → ℝ) (count : ℕ)
    (radius depth : ℝ) (i : ℕ) (hi : i < count) :
    (makeStarField rnd count radius depth).positions[i]? =
      some ⟨(radius + rnd (3 * i) * depth)
              * Real.sin (Real.arccos (2 * rnd (3 * i + 2) - 1))
              * Real.cos (2 * Real.pi * rnd (3 * i + 1)),
            (radius + rnd (3 * i) * depth)
              * Real.sin (Real.arccos (2 * rnd (3 * i + 2) - 1))
              * Real.sin (2 * Real.pi * rnd (3 * i + 1)),
            (radius + rnd (3 * i) * depth)
              * Real.cos (Real.arccos (2 * rnd (3 * i + 2) - 1))⟩ := by
  simp [makeStarField, starFieldPositions, List.getElem?_map,
    List.getElem?_range, hi]

/-- Witness for C6 at the first point of a one-point field. -/
theorem starField_point_formula_witness :
    0 < 1 ∧
    (makeStarField rnd0 1 2 3).positions[0]? =
      some ⟨(2 + rnd0 (3 * 0) * 3)
              * Real.sin (Real.arccos (2 * rnd0 (3 * 0 + 2) - 1))
              * Real.cos (2 * Real.pi * rnd0 (3 * 0 + 1)),
            (2 + rnd0 (3 * 0) * 3)
              * Real.sin (Real.arccos (2 * rnd0 (3 * 0 + 2) - 1))
              * Real.sin (2 * Real.pi * rnd0 (3 * 0 + 1)),
            (2 + rnd0 (3 * 0) * 3)
              * Real.cos (Real.arccos (2 * rnd0 (3 * 0 + 2) - 1))⟩ :=
  ⟨by norm_num, starField_point_formula rnd0 1 2 3 0 (by norm_num)⟩

/-- C10: `makeStarField` is total at `count = 0`: the returned point
cloud has an empty position buffer and no error is raised. -/
theorem makeStarField_total_at_zero (rnd : ℕ → ℝ) (radius depth : ℝ) :
    (makeStarField rnd 0 radius depth).positions = [] := by
  simp [makeStarField, starFieldPositions]

/-- C5: on a resize to viewport `(w, h)` with device pixel ratio `dpr`,
the handler sets the camera aspect to exactly `w / h`, marks the camera
projection matrix for recomputation, resizes the output surface to the
new dimensions, and sets the pixel ratio to `min dpr 2`. -/
theorem onResize_updates_viewport (w h dpr : ℝ) (s : SceneState) :
    (onResize w h dpr s).camera.aspect = w / h ∧
    (onResize w h dpr s).projectionRefreshed = true ∧
    (onResize w h dpr s).surfaceW = w ∧
    (onResize w h dpr s).surfaceH = h ∧
    (onResize w h dpr s).pixelRatio = min dpr 2 := by
  refine ⟨rfl, rfl, rfl, rfl, rfl⟩

/-- C2: every frame at elapsed time `t` sets the Earth rotation angle to
`0.08 * t`, and, when the cloud mesh is present, the cloud rotation
angle to `0.11 * t`; the Earth angle depends on nothing but `t`, being
`0` at `t = 0` and `0.8` radians at `t = 10`. -/
theorem tick_rotations (f : Vec3 → Vec3) (t : ℝ) (s : SceneState) :
    (tick f t s).earthRotY = 0.08 * t ∧
    (∀ c, s.clouds = some c →
      (tick f t s).clouds = some { c with rotY := 0.11 * t }) ∧
    (tick f 0 s).earthRotY = 0 ∧
    (tick f 10 s).earthRotY = 0.8 := by
  refine ⟨by simp [tick]; ring, ?_, by simp [tick], by norm_num [tick]⟩
  intro c hc
  rw [show (0.11 : ℝ) * t = t * 0.11 from mul_comm _ _]
  simp [tick, hc]

/-- Witness for C2 at `t = 10` on the fully composed scene. -/
theorem tick_rotations_witness :
    (tick id 10 sceneEx).earthRotY = 0.08 * 10 ∧
    (tick id 10 sceneEx).clouds = some { cloudsEx with rotY := 0.11 * 10 } ∧
    (tick id 0 sceneEx).earthRotY = 0 ∧
    (tick id 10 sceneEx).earthRotY = 0.8 := by
  obtain ⟨h1, h2, h3, h4⟩ := tick_rotations id 10 sceneEx
  exact ⟨h1, h2 cloudsEx rfl, h3, h4⟩

/-- C7: every frame forces the night overlay's opacity (when the overlay
is present) to the constant `0.6`; in particular the assigned value does
not depend on the sun's position (the light direction). -/
theorem tick_night_opacity_constant (f : Vec3 → Vec3) (t : ℝ)
    (s : SceneState) :
    (tick f t s).night.map NightState.opacity
      = s.night.map (fun _ => (0.6 : ℝ)) ∧
    (∀ p : Vec3,
      (tick f t { s with sunPosition := p }).night.map NightState.opacity
        = (tick f t s).night.map NightState.opacity) := by
  constructor
  · cases h : s.night <;> simp [tick, h]
  · intro p
    cases h : s.night <;> simp [tick, h]

/-- C8: the composed camera is a 45° perspective projection with near
plane `0.1`, far plane `2000` and aspect `w / h`; the orbit controls are
configured with distance bounds `[3, 20]` and damping factor `0.06`,
and each frame applies the orbit-control step to the camera exactly
once. -/
theorem camera_and_controls_config (w h : ℝ) (f : Vec3 → Vec3) (t : ℝ)
    (s : SceneState) :
    (initialCamera w h).fov = 45 ∧
    (initialCamera w h).near = 0.1 ∧
    (initialCamera w h).far = 2000 ∧
    (initialCamera w h).aspect = w / h ∧
    initialControls.minDistance = 3.0 ∧
    initialControls.maxDistance = 20.0 ∧
    initialControls.dampingFactor = 0.06 ∧
    initialControls.enableDamping = true ∧
    (tick f t s).camera.position = f s.camera.position := by
  refine ⟨rfl, rfl, rfl, rfl, rfl, rfl, rfl, rfl, rfl⟩

/-- One event (a frame or a resize) never changes any render order. -/
lemma stepEvent_renderOrders (s : SceneState) (e : Event) :
    (stepEvent s e).night.map NightState.renderOrder
      = s.night.map NightState.renderOrder ∧
    (stepEvent s e).clouds.map CloudsState.renderOrder
      = s.clouds.map CloudsState.renderOrder ∧
    (stepEvent s e).atmoRenderOrder = s.atmoRenderOrder ∧
    (stepEvent s e).earthRenderOrder = s.earthRenderOrder := by
  cases e with
  | frame f t =>
    refine ⟨?_, ?_, rfl, rfl⟩
    · cases hn : s.night <;> simp [stepEvent, tick, hn]
    · cases hc : s.clouds <;> simp [stepEvent, tick, hc]
  | resize w h d => exact ⟨rfl, rfl, rfl, rfl⟩

/-- No trace of frames and resizes ever changes a render order. -/
lemma runEvents_renderOrders (evs : List Event) (s : SceneState) :
    (runEvents evs s).night.map NightState.renderOrder
      = s.night.map NightState.renderOrder ∧
    (runEvents evs s).clouds.map CloudsState.renderOrder
      = s.clouds.map CloudsState.renderOrder ∧
    (runEvents evs s).atmoRenderOrder = s.atmoRenderOrder ∧
    (runEvents evs s).earthRenderOrder = s.earthRenderOrder := by
  induction evs generalizing s with
  | nil => exact ⟨rfl, rfl, rfl, rfl⟩
  | cons e evs ih =>
    obtain ⟨i1, i2, i3, i4⟩ := ih (stepEvent s e)
    obtain ⟨j1, j2, j3, j4⟩ := stepEvent_renderOrders s e
    exact ⟨i1.trans j1, i2.trans j2, i3.trans j3, i4.trans j4⟩

/-- Render orders and mesh presence of a freshly composed scene. -/
lemma composeScene_fields (l : Loader) (rnd : ℕ → ℝ) (w h dpr : ℝ)
    (s0 : SceneState) (hs0 : composeScene l rnd w h dpr = Except.ok s0) :
    s0.night.map NightState.renderOrder
      = (tryLoad l "/textures/earth_night.jpg").map (fun _ => (1 : ℤ)) ∧
    s0.clouds.map CloudsState.renderOrder
      = (tryLoad l "/textures/earth_clouds.png").map (fun _ => (2 : ℤ)) ∧
    s0.atmoRenderOrder = 3 ∧ s0.earthRenderOrder = none := by
  cases hd : l "/textures/earth_day.jpg" with
  | error e => simp [composeScene, hd] at hs0
  | ok day =>
    simp only [composeScene, hd] at hs0
    rw [Except.ok.injEq] at hs0
    subst hs0
    refine ⟨?_, ?_, rfl, rfl⟩
    · cases hn : tryLoad l "/textures/earth_night.jpg" <;> simp [hn]
    · cases hc : tryLoad l "/textures/earth_clouds.png" <;> simp [hc]

/-- C3: in every state reachable from a successful composition — after
any sequence of frames and resizes, so regardless of load-completion
timing — if the night-lights and clouds meshes are present their render
orders are `1` and `2`, the atmosphere has render order `3`, the Earth
mesh carries no explicit render order, and
`night < clouds < atmosphere` holds. -/
theorem renderOrder_invariant (l : Loader) (rnd : ℕ → ℝ) (w h dpr : ℝ)
    (evs : List Event) (s0 : SceneState) (n : NightState)
    (c : CloudsState)
    (hs0 : composeScene l rnd w h dpr = Except.ok s0)
    (hn : (runEvents evs s0).night = some n)
    (hc : (runEvents evs s0).clouds = some c) :
    n.renderOrder = 1 ∧ c.renderOrder = 2 ∧
    (runEvents evs s0).atmoRenderOrder = 3 ∧
    (runEvents evs s0).earthRenderOrder = none ∧
    n.renderOrder < c.renderOrder ∧
    c.renderOrder < (runEvents evs s0).atmoRenderOrder := by
  obtain ⟨r1, r2, r3, r4⟩ := runEvents_renderOrders evs s0
  obtain ⟨f1, f2, f3, f4⟩ := composeScene_fields l rnd w h dpr s0 hs0
  rw [hn] at r1
  rw [hc] at r2
  have hn1 : n.renderOrder = 1 := by
    rw [f1] at r1
    cases ht : tryLoad l "/textures/earth_night.jpg" <;>
      simp [ht] at r1 <;> exact r1
  have hc2 : c.renderOrder = 2 := by
    rw [f2] at r2
    cases ht : tryLoad l "/textures/earth_clouds.png" <;>
      simp [ht] at r2 <;> exact r2
  refine ⟨hn1, hc2, r3.trans f3, r4.trans f4, ?_, ?_⟩
  · rw [hn1, hc2]; norm_num
  · rw [hc2, r3.trans f3]; norm_num

/-- Witness for C3: the scene composed with every texture loading,
after the empty trace. -/
theorem renderOrder_invariant_witness :
    (composeScene lok rnd0 16 9 1 = Except.ok sceneEx ∧
     (runEvents [] sceneEx).night = some nightEx ∧
     (runEvents [] sceneEx).clouds = some cloudsEx) ∧
    (nightEx.renderOrder = 1 ∧ cloudsEx.renderOrder = 2 ∧
     (runEvents [] sceneEx).atmoRenderOrder = 3 ∧
     (runEvents [] sceneEx).earthRenderOrder = none ∧
     nightEx.renderOrder < cloudsEx.renderOrder ∧
     cloudsEx.renderOrder < (runEvents [] sceneEx).atmoRenderOrder) :=
  ⟨⟨rfl, rfl, rfl⟩,
   renderOrder_invariant lok rnd0 16 9 1 [] sceneEx nightEx cloudsEx
     rfl rfl rfl⟩

/-- C4: `tryLoad` turns every load failure into `none` instead of
propagating it; when the day map loads, a failing clouds texture still
composes a scene, one with no clouds mesh; a failing day map is the one
load whose error propagates out of composition. -/
theorem tryLoad_swallows_failure (l : Loader) (rnd : ℕ → ℝ)
    (w h dpr : ℝ) :
    (∀ p e, l p = Except.error e → tryLoad l p = none) ∧
    (∀ day e, l "/textures/earth_day.jpg" = Except.ok day →
      l "/textures/earth_clouds.png" = Except.error e →
      ∀ s, composeScene l rnd w h dpr = Except.ok s →
        s.clouds = none) ∧
    (∀ day, l "/textures/earth_day.jpg" = Except.ok day →
      (composeScene l rnd w h dpr).isOk = true) ∧
    (∀ e, l "/textures/earth_day.jpg" = Except.error e →
      composeScene l rnd w h dpr = Except.error e) := by
  refine ⟨?_, ?_, ?_, ?_⟩
  · intro p e hp
    simp [tryLoad, hp]
  · intro day e hday hcl s hs
    simp only [composeScene, hday] at hs
    rw [Except.ok.injEq] at hs
    subst hs
    simp [tryLoad, hcl]
  · intro day hday
    simp [composeScene, hday, Except.isOk, Except.toBool]
  · intro e he
    simp [composeScene, he]

/-- Witness for C4: a loader failing only on the clouds texture, and a
loader failing on everything. -/
theorem tryLoad_swallows_failure_witness :
    (lclouds "/textures/earth_clouds.png" = Except.error "missing" ∧
     lclouds "/textures/earth_day.jpg"
       = Except.ok ⟨"/textures/earth_day.jpg"⟩ ∧
     lbad "/textures/earth_day.jpg" = Except.error "missing" ∧
     composeScene lclouds rnd0 16 9 1 = Except.ok sceneNoClouds) ∧
    tryLoad lclouds "/textures/earth_clouds.png" = none ∧
    sceneNoClouds.clouds = none ∧
    (composeScene lclouds rnd0 16 9 1).isOk = true ∧
    composeScene lbad rnd0 16 9 1 = Except.error "missing" := by
  obtain ⟨h1, h2, h3, _⟩ := tryLoad_swallows_failure lclouds rnd0 16 9 1
  obtain ⟨_, _, _, g4⟩ := tryLoad_swallows_failure lbad rnd0 16 9 1
  exact ⟨⟨rfl, rfl, rfl, rfl⟩,
    h1 "/textures/earth_clouds.png" "missing" rfl,
    h2 ⟨"/textures/earth_day.jpg"⟩ "missing" rfl rfl sceneNoClouds rfl,
    h3 ⟨"/textures/earth_day.jpg"⟩ rfl,
    g4 "missing" rfl⟩

/-- C9: a frame mutates only the Earth rotation angle, the cloud
rotation angle, the night-overlay opacity and the camera position (via
the orbit-control step); the star field, every render order, the
geometry radii, the projection parameters, the controls configuration
and the renderer surface are unchanged. -/
theorem tick_frame_effect (f : Vec3 → Vec3) (t : ℝ) (s : SceneState) :
    (tick f t s).stars = s.stars ∧
    (tick f t s).earthRadius = s.earthRadius ∧
    (tick f t s).earthRenderOrder = s.earthRenderOrder ∧
    (tick f t s).night.map NightState.renderOrder
      = s.night.map NightState.renderOrder ∧
    (tick f t s).night.isSome = s.night.isSome ∧
    (tick f t s).clouds.map CloudsState.renderOrder
      = s.clouds.map CloudsState.renderOrder ∧
    (tick f t s).clouds.map CloudsState.radius
      = s.clouds.map CloudsState.radius ∧
    (tick f t s).clouds.isSome = s.clouds.isSome ∧
    (tick f t s).atmoRadius = s.atmoRadius ∧
    (tick f t s).atmoRenderOrder = s.atmoRenderOrder ∧
    (tick f t s).atmoOpacity = s.atmoOpacity ∧
    (tick f t s).camera.fov = s.camera.fov ∧
    (tick f t s).camera.near = s.camera.near ∧
    (tick f t s).camera.far = s.camera.far ∧
    (tick f t s).camera.aspect = s.camera.aspect ∧
    (tick f t s).controls = s.controls ∧
    (tick f t s).sunPosition = s.sunPosition ∧
    (tick f t s).surfaceW = s.surfaceW ∧
    (tick f t s).surfaceH = s.surfaceH ∧
    (tick f t s).pixelRatio = s.pixelRatio ∧
    (tick f t s).earthRotY = t * 0.08 ∧
    (tick f t s).clouds.map CloudsState.rotY
      = s.clouds.map (fun _ => t * 0.11) ∧
    (tick f t s).night.map NightState.opacity
      = s.night.map (fun _ => (0.6 : ℝ)) ∧
    (tick f t s).camera.position = f s.camera.position := by
  refine ⟨rfl, rfl, rfl, ?_, ?_, ?_, ?_, ?_, rfl, rfl, rfl, rfl, rfl, rfl,
    rfl, rfl, rfl, rfl, rfl, rfl, rfl, ?_, ?_, rfl⟩
  all_goals cases hn : s.night <;> cases hc : s.clouds <;> simp [tick, hn, hc]

end SpaceMuseum
